import Mathlib

/-
Verification development for the MyDosen backend: a shallow embedding of the
realtime lecturer-tracking engine (geofence classification, the location
update pipeline with its two independent throttles, the presence registry,
and room-join authorization), with theorems settling the specified
properties against the embedded code.

Conventions of the embedding:
* JavaScript numbers appearing in geographic data are modelled as rationals
  (the transcendental trigonometry inside haversineDistance is abstracted as
  an arbitrary distance function parameter, since the claims concern the
  classification loop around it, not the floating-point trigonometry).
* Database ids are TEXT (UUID) columns, so ids are strings.
* JS Maps are association lists with in-place update (JS Map.set on an
  existing key keeps its position; a new key is appended), JS Sets are
  duplicate-free lists in insertion order.
* Timestamps (Date.now(), logged_at) are integers in epoch milliseconds.
* Fallible database calls are modelled by explicit Except / Bool failure
  parameters; a try/catch that swallows an error becomes a branch returning
  the unchanged state.
-/

namespace MyDosen

/-- JavaScript runtime values occurring in socket payloads. -/
inductive JSValue where
  | undef
  | null
  | num (q : ℚ)
  | str (s : String)
  | bool (b : Bool)
deriving DecidableEq

/-- JS nullish coalescing `a ?? b`: falls through only on null/undefined. -/
def nullishCoalesce (a b : JSValue) : JSValue :=
  match a with
  | .undef => b
  | .null => b
  | v => v

/-- JS falsiness of a payload value (`!v`). -/
def isFalsy : JSValue → Bool
  | .undef => true
  | .null => true
  | .num q => q == 0
  | .str s => s == ""
  | .bool b => !b

/-- Template-literal stringification of a payload value, as in
`room:dosen_$\x7bdosenId\x7d` (for the string ids actually used it is the
identity). -/
def jsDisplay : JSValue → String
  | .str s => s
  | .num q => toString q
  | .null => "null"
  | .undef => "undefined"
  | .bool b => toString b

/-- JS `Map.set` on an association list: replace the first binding of the key
in place, else append a new binding (JS Maps preserve insertion order). -/
def mapSet {α : Type} (m : List (String × α)) (k : String) (v : α) :
    List (String × α) :=
  match m with
  | [] => [(k, v)]
  | (k0, v0) :: rest =>
      if k0 = k then (k, v) :: rest else (k0, v0) :: mapSet rest k v

/-- JS `Map.delete` on an association list. -/
def mapDel {α : Type} (m : List (String × α)) (k : String) :
    List (String × α) :=
  m.filter (fun p => p.1 ≠ k)

/-- JS `Set.add`: append the element unless already present. -/
def setAdd (s : List String) (x : String) : List String :=
  if x ∈ s then s else s ++ [x]

/-- JS `Set.delete`: remove the element if present. -/
def setDel (s : List String) (x : String) : List String :=
  s.filter (fun y => y ≠ x)

/-! ### Geofence engine (src/utils/geofence.js) -/

/-- One row of the `geofences` table. -/
structure Geofence where
  name : String
  latitude : ℚ
  longitude : ℚ
  radius_km : ℚ
deriving DecidableEq

/-- Result record returned by `checkGeofence`. -/
structure GeofenceResult where
  isInside : Bool
  locationName : String
  displayLat : ℚ
  displayLong : ℚ
deriving DecidableEq

/-- Jakarta coordinates for privacy masking (the `MASKED_LOCATION` constant). -/
structure MaskedLoc where
  latitude : ℚ
  longitude : ℚ
  locationName : String
deriving DecidableEq

def MASKED_LOCATION : MaskedLoc :=
  { latitude := -6.2088, longitude := 106.8456, locationName := "Di Luar" }

/-- The masked geofence result built in both the no-match and the error
branch of `checkGeofence`. -/
def maskedResult : GeofenceResult :=
  { isInside := false
    locationName := MASKED_LOCATION.locationName
    displayLat := MASKED_LOCATION.latitude
    displayLong := MASKED_LOCATION.longitude }

/-- The `for (const geofence of geofences)` loop of `checkGeofence`: the first
zone whose distance from the sample is at most its radius wins and the raw
coordinates are returned; if none matches, the masked location is returned.
The haversine distance computation (floating-point trigonometry in the
source) is the abstract parameter `dist lat long zoneLat zoneLong`. -/
def geofenceLoop (dist : ℚ → ℚ → ℚ → ℚ → ℚ) (lat long : ℚ) :
    List Geofence → GeofenceResult
  | [] => maskedResult
  | g :: rest =>
      if dist lat long g.latitude g.longitude ≤ g.radius_km then
        { isInside := true
          locationName := g.name
          displayLat := lat
          displayLong := long }
      else geofenceLoop dist lat long rest

/-- `checkGeofence(lat, long)`: fetch all geofences (a fallible database
read) and run the classification loop; any error in the computation is
caught and yields the masked location. -/
def checkGeofence (dist : ℚ → ℚ → ℚ → ℚ → ℚ)
    (fetch : Except String (List Geofence)) (lat long : ℚ) : GeofenceResult :=
  match fetch with
  | .error _ => maskedResult
  | .ok geofences => geofenceLoop dist lat long geofences

/-! ### Location update pipeline (src socket manager, handleLocationUpdate) -/

/-- The authenticated socket user (id, display name, role string). -/
structure User where
  id : String
  name : String
  role : String
deriving DecidableEq

/-- Payload of an `update_location` event; both the `lat`/`long` and the
`latitude`/`longitude` field names may be present. -/
structure UpdatePayload where
  lat : JSValue
  latitude : JSValue
  long : JSValue
  longitude : JSValue
deriving DecidableEq

/-- One row of the `locations` table (PersistedLocation). -/
structure LocationRow where
  latitude : ℚ
  longitude : ℚ
  position_name : String
  last_updated : Int
deriving DecidableEq

/-- One row of the `location_history` table (uuid primary key omitted:
it never influences behaviour). -/
structure HistoryRecord where
  dosen_id : String
  day_of_week : Nat
  location_name : String
  latitude : ℚ
  longitude : ℚ
  logged_date : String
  logged_at : Int
deriving DecidableEq

/-- The `dosen_moved` / `location_updated` payload built in
handleLocationUpdate (`last_updated` carried as the epoch timestamp that the
source renders as an ISO string). -/
structure MovedPayload where
  dosen_id : String
  name : String
  latitude : ℚ
  longitude : ℚ
  position_name : String
  is_inside : Bool
  last_updated : Int
deriving DecidableEq

/-- Events emitted on the socket layer by the embedded handlers. -/
inductive SocketEvent where
  | errorMsg (message : String)
  | dosenMoved (room : String) (p : MovedPayload)
  | locationUpdated (success : Bool) (processed : MovedPayload)
  | dosenStatus (dosen_id : String) (name : String) (is_online : Bool)
  | movedSnapshot (dosen_id : String) (name : String) (row : LocationRow)
  | roomJoined (dosen_id : String) (room : String) (message : String)
deriving DecidableEq

/-- Mutable state touched by the location pipeline: the `locations` table,
the in-memory `lastSaveTimestamps` map, and the `location_history` table
(held in insertion order, which is chronological for this append-only
store). -/
structure PipelineState where
  locations : List (String × LocationRow)
  lastSaveTimestamps : List (String × Int)
  history : List HistoryRecord
deriving DecidableEq

def LOCATION_SAVE_THROTTLE_MS : Int := 60000

def LOCATION_LOG_THROTTLE_MS : Int := 3600000

/-- `saveLocation(userId, geofenceResult)`: upsert into `locations`; any
store error is caught and logged, leaving the table as it was (`fail`
models the store throwing). -/
def saveLocation (fail : Bool) (userId : String) (g : GeofenceResult)
    (nowMs : Int) (locs : List (String × LocationRow)) :
    List (String × LocationRow) :=
  if fail then locs
  else
    mapSet locs userId
      { latitude := g.displayLat
        longitude := g.displayLong
        position_name := g.locationName
        last_updated := nowMs }

/-- The SQL `SELECT ... WHERE dosen_id = ? AND day_of_week = ? AND
logged_date = ? ORDER BY logged_at DESC LIMIT 1` over the append-only
(hence chronologically ordered) history list: the most recently inserted
matching record. -/
def lastLogFor (hist : List HistoryRecord) (dosenId : String) (day : Nat)
    (date : String) : Option HistoryRecord :=
  (hist.filter (fun r =>
    r.dosen_id == dosenId && r.day_of_week == day && r.logged_date == date)).getLast?

/-- The shouldLog decision of logLocationToHistory: no prior record, or the
location name changed, or at least one hour elapsed since the prior
record. -/
def shouldLogHistory (lastLog : Option HistoryRecord) (newName : String)
    (nowMs : Int) : Bool :=
  match lastLog with
  | none => true
  | some r =>
      (r.location_name != newName) ||
        (LOCATION_LOG_THROTTLE_MS ≤ nowMs - r.logged_at)

/-- `logLocationToHistory(userId, geofenceResult)`: skip entirely when the
sample is outside every zone; otherwise consult the most recent record for
(dosen, day of week, date) and append a fresh record when the decision says
so. A store error (`fail`) is caught and logged, leaving the history as it
was. -/
def logLocationToHistory (fail : Bool) (userId : String) (g : GeofenceResult)
    (nowMs : Int) (day : Nat) (date : String) (hist : List HistoryRecord) :
    List HistoryRecord :=
  if !g.isInside then hist
  else if fail then hist
  else if shouldLogHistory (lastLogFor hist userId day date) g.locationName nowMs then
    hist ++ [{ dosen_id := userId
               day_of_week := day
               location_name := g.locationName
               latitude := g.displayLat
               longitude := g.displayLong
               logged_date := date
               logged_at := nowMs }]
  else hist

/-- The `locationData` record built by handleLocationUpdate from the
geofence result, broadcast as `dosen_moved` and echoed in the
acknowledgment. -/
def movedPayloadOf (u : User) (g : GeofenceResult) (nowMs : Int) :
    MovedPayload :=
  { dosen_id := u.id
    name := u.name
    latitude := g.displayLat
    longitude := g.displayLong
    position_name := g.locationName
    is_inside := g.isInside
    last_updated := nowMs }

/-- `handleLocationUpdate(io, socket, user, data)`: role check, payload
alias normalization and numeric validation, geofence classification,
immediate room broadcast, throttled persistence (advancing the throttle
timestamp only when a save happens), history logging, and the success
acknowledgment. `sfail`/`hfail` model the location and history stores
throwing (both swallowed inside their helpers). Returns the emitted events
in order together with the new state. -/
def handleLocationUpdate (dist : ℚ → ℚ → ℚ → ℚ → ℚ)
    (fetch : Except String (List Geofence)) (sfail hfail : Bool) (u : User)
    (data : UpdatePayload) (nowMs : Int) (day : Nat) (date : String)
    (st : PipelineState) : List SocketEvent × PipelineState :=
  if u.role ≠ "dosen" then
    ([.errorMsg "Only dosen can update location"], st)
  else
    let lat := nullishCoalesce data.lat data.latitude
    let long := nullishCoalesce data.long data.longitude
    if lat = .undef ∨ long = .undef then
      ([.errorMsg "Latitude and longitude are required"], st)
    else
      match lat, long with
      | .num la, .num lo =>
          let g := checkGeofence dist fetch la lo
          let payload := movedPayloadOf u g nowMs
          let lastSave := (st.lastSaveTimestamps.lookup u.id).getD 0
          let doSave := LOCATION_SAVE_THROTTLE_MS ≤ nowMs - lastSave
          let locs :=
            if doSave then saveLocation sfail u.id g nowMs st.locations
            else st.locations
          let stamps :=
            if doSave then mapSet st.lastSaveTimestamps u.id nowMs
            else st.lastSaveTimestamps
          let hist := logLocationToHistory hfail u.id g nowMs day date st.history
          ([.dosenMoved ("room:dosen_" ++ u.id) payload,
            .locationUpdated true payload],
           { locations := locs, lastSaveTimestamps := stamps, history := hist })
      | _, _ => ([.errorMsg "Invalid coordinate format"], st)

/-! ### Presence registry

Two variants exist in the repository: the current socket manager keeps
`onlineDosenMap : dosenId -> Set(socketId)` (set-based), the older one keeps
`onlineDosenMap : dosenId -> socket count` (count-based, clamping at zero
with `Math.max`). Both are embedded. -/

/-- Set-based `handleDosenConnection` presence mutation: add the socket id
to the set of the identity (creating the set if absent). -/
def dosenConnect (m : List (String × List String)) (id sid : String) :
    List (String × List String) :=
  mapSet m id (setAdd ((m.lookup id).getD []) sid)

/-- Set-based `handleDisconnect` presence mutation: remove the socket id
from the set of the identity, dropping the map entry when the set empties; a
missing entry is left untouched. -/
def dosenDisconnect (m : List (String × List String)) (id sid : String) :
    List (String × List String) :=
  match m.lookup id with
  | none => m
  | some s =>
      let s2 := setDel s sid
      if s2.isEmpty then mapDel m id else mapSet m id s2

/-- Set-based `isDosenOnline`: the entry exists and its set is non-empty. -/
def isDosenOnline (m : List (String × List String)) (id : String) : Bool :=
  match m.lookup id with
  | none => false
  | some s => decide (0 < s.length)

/-- Count-based `handleDosenConnection` presence mutation: increment the
connection count of the identity (starting from 0 when absent). -/
def cConnect (m : List (String × Int)) (id : String) : List (String × Int) :=
  mapSet m id ((m.lookup id).getD 0 + 1)

/-- Count-based `handleDisconnect` presence mutation:
`Math.max(0, currentCount - 1)`, deleting the entry when it reaches zero. -/
def cDisconnect (m : List (String × Int)) (id : String) : List (String × Int) :=
  let c := (m.lookup id).getD 0
  let n := max 0 (c - 1)
  if n = 0 then mapDel m id else mapSet m id n

/-- Count-based `isDosenOnline`: the entry exists and is positive. -/
def cIsOnline (m : List (String × Int)) (id : String) : Bool :=
  match m.lookup id with
  | none => false
  | some c => decide (0 < c)

/-- Presence events for one identity: a transport connection or a transport
disconnection, carrying the connection (socket) id. -/
inductive PEvent where
  | conn (sid : String)
  | disc (sid : String)
deriving DecidableEq

/-- The abstract set of currently connected socket ids after an event. -/
def absStep (s : List String) : PEvent → List String
  | .conn sid => setAdd s sid
  | .disc sid => setDel s sid

/-- The abstract connected-socket set after a whole trace. -/
def absRun (s : List String) (tr : List PEvent) : List String :=
  tr.foldl absStep s

/-- Well-formed transport traces: a connect always carries a fresh socket
id and a disconnect always targets a currently connected socket id (each
completed disconnect matches an earlier completed connect), which is what
the transport layer guarantees. -/
def wfFrom (s : List String) : List PEvent → Bool
  | [] => true
  | .conn sid :: r => !decide (sid ∈ s) && wfFrom (setAdd s sid) r
  | .disc sid :: r => decide (sid ∈ s) && wfFrom (setDel s sid) r

def numConn (tr : List PEvent) : Nat :=
  (tr.filter (fun e => match e with | .conn _ => true | .disc _ => false)).length

def numDisc (tr : List PEvent) : Nat :=
  (tr.filter (fun e => match e with | .conn _ => false | .disc _ => true)).length

/-- Run one presence event through the set-based registry for identity
`id`. -/
def stepSet (id : String) (m : List (String × List String)) :
    PEvent → List (String × List String)
  | .conn sid => dosenConnect m id sid
  | .disc sid => dosenDisconnect m id sid

/-- Run a whole trace through the set-based registry, from the empty map. -/
def runSetModel (id : String) (tr : List PEvent) :
    List (String × List String) :=
  tr.foldl (stepSet id) []

/-- Run one presence event through the count-based registry for identity
`id` (the count-based disconnect ignores the socket id). -/
def stepCount (id : String) (m : List (String × Int)) :
    PEvent → List (String × Int)
  | .conn _ => cConnect m id
  | .disc _ => cDisconnect m id

/-- Run a whole trace through the count-based registry, from the empty
map. -/
def runCountModel (id : String) (tr : List PEvent) : List (String × Int) :=
  tr.foldl (stepCount id) []

/-! ### Room join authorization (handleJoinDosenRoom) and permission
approval (trackingController.handleRequest) -/

/-- One row of the `tracking_permissions` table. -/
structure Permission where
  id : String
  student_id : String
  lecturer_id : String
  status : String
deriving DecidableEq

/-- The `SELECT id FROM tracking_permissions WHERE student_id = ? AND
lecturer_id = ? AND status approved` lookup. -/
def hasApproved (perms : List Permission) (studentId lecturerId : String) :
    Option Permission :=
  perms.find? (fun p =>
    p.student_id == studentId && p.lecturer_id == lecturerId &&
      p.status == "approved")

/-- Payload of a `join_dosen_room` event; both `dosenId` and `dosen_id`
field names may be present. -/
structure JoinData where
  dosenId : JSValue
  dosen_id : JSValue
deriving DecidableEq

/-- Read-only collaborators consulted by the join handler. -/
structure JoinEnv where
  permissions : List Permission
  users : List (String × String)
  locations : List (String × LocationRow)
  onlineUsers : List (String × List String)
deriving DecidableEq

/-- Whether a socket id is a member of a room. -/
def roomHasMember (rooms : List (String × List String))
    (room sid : String) : Bool :=
  decide (sid ∈ (rooms.lookup room).getD [])

/-- `socket.join(roomName)`: add the connection to the room member set. -/
def roomJoin (rooms : List (String × List String)) (room sid : String) :
    List (String × List String) :=
  mapSet rooms room (setAdd ((rooms.lookup room).getD []) sid)

/-- `handleJoinDosenRoom(io, socket, user, data)`: role check, payload
alias normalization and truthiness check, approved-permission check, then
the actual join followed by the snapshot emissions (dosen status looked up
as in `isUserOnline`, last known location when online) and the
`room_joined` acknowledgment. Returns the emitted events and the new room
membership map. -/
def handleJoinDosenRoom (u : User) (sid : String) (data : JoinData)
    (env : JoinEnv) (rooms : List (String × List String)) :
    List SocketEvent × List (String × List String) :=
  if u.role ≠ "mahasiswa" then
    ([.errorMsg "Only mahasiswa can join dosen tracking rooms"], rooms)
  else
    let dosenIdVal := nullishCoalesce data.dosenId data.dosen_id
    if isFalsy dosenIdVal then
      ([.errorMsg "dosen_id is required"], rooms)
    else
      let did := jsDisplay dosenIdVal
      match hasApproved env.permissions u.id did with
      | none =>
          ([.errorMsg
              "Access denied. You do not have permission to track this dosen."],
           rooms)
      | some _ =>
          let roomName := "room:dosen_" ++ did
          let rooms2 := roomJoin rooms roomName sid
          let dosenName := (env.users.lookup did).getD "Unknown"
          let isOnline :=
            match env.onlineUsers.lookup did with
            | none => false
            | some s => decide (0 < s.length)
          let statusEvents := [SocketEvent.dosenStatus did dosenName isOnline]
          let snapshotEvents :=
            if isOnline then
              match env.locations.lookup did with
              | some row => [SocketEvent.movedSnapshot did dosenName row]
              | none => []
            else []
          (statusEvents ++ snapshotEvents ++
            [.roomJoined did roomName "Successfully joined tracking room"],
           rooms2)

/-- Combined engine state for the frame property of permission approval:
socket room membership plus the permission store. -/
structure SystemState where
  rooms : List (String × List String)
  permissions : List Permission
deriving DecidableEq

/-- The `UPDATE tracking_permissions SET status = ? WHERE id = ?` step of
`handleRequest` in the tracking controller: only the permission store is
touched; socket room membership is not an input of that code path at
all. -/
def applyHandleRequest (st : SystemState) (permissionId action : String) :
    SystemState :=
  { st with
    permissions :=
      st.permissions.map (fun p =>
        if p.id == permissionId then { p with status := action } else p) }

/-! ### Theorems -/

/-- Concrete stand-in distance function for witnesses: it reads the
distance off the center latitude of the zone, so every comparison in a witness
is between rational literals. The theorems about the classification loop
hold for every distance function, the source one included. -/
def distW : ℚ → ℚ → ℚ → ℚ → ℚ := fun _ _ zlat _ => zlat

/-- C1: for every coordinate pair and every configured zone list, the
classifier returns the first zone in list order whose distance from the
sample is at most its radius — the zones after it, however close, are
irrelevant — and for such an in-zone match the result has isInside = true,
the name of the zone, and display coordinates exactly equal to the raw input. -/
theorem C1_first_match_policy (dist : ℚ → ℚ → ℚ → ℚ → ℚ) (lat long : ℚ)
    (z : Geofence) (pre post : List Geofence)
    (hpre : ∀ g ∈ pre, ¬ dist lat long g.latitude g.longitude ≤ g.radius_km)
    (hz : dist lat long z.latitude z.longitude ≤ z.radius_km) :
    checkGeofence dist (.ok (pre ++ z :: post)) lat long =
      { isInside := true
        locationName := z.name
        displayLat := lat
        displayLong := long } := by
  induction pre with
  | nil => simp [checkGeofence, geofenceLoop, hz]
  | cons g gs ih =>
      have hg : ¬ dist lat long g.latitude g.longitude ≤ g.radius_km :=
        hpre g (List.mem_cons_self g gs)
      have ih2 := ih (fun x hx => hpre x (List.mem_cons_of_mem g hx))
      simpa [checkGeofence, geofenceLoop, hg] using ih2

/-- Witness for C1 at concrete inputs: the sample sits inside both the
second and the third zone, the third has the smaller distance, yet the
second — first in configured order to match — wins, and the raw
coordinates are echoed. -/
theorem C1_first_match_policy_witness :
    (∀ g ∈ [({ name := "Far", latitude := 10, longitude := 10,
               radius_km := 1 } : Geofence)],
        ¬ distW 0 0 g.latitude g.longitude ≤ g.radius_km) ∧
    distW 0 0 3 4 ≤ (10 : ℚ) ∧
    checkGeofence distW
      (.ok [{ name := "Far", latitude := 10, longitude := 10, radius_km := 1 },
            { name := "Campus A", latitude := 3, longitude := 4, radius_km := 10 },
            { name := "Closer", latitude := 0, longitude := 0, radius_km := 1 }])
      0 0 =
      { isInside := true
        locationName := "Campus A"
        displayLat := 0
        displayLong := 0 } :=
  ⟨by decide, by decide,
   C1_first_match_policy distW 0 0
     { name := "Campus A", latitude := 3, longitude := 4, radius_km := 10 }
     [{ name := "Far", latitude := 10, longitude := 10, radius_km := 1 }]
     [{ name := "Closer", latitude := 0, longitude := 0, radius_km := 1 }]
     (by decide) (by decide)⟩

/-- C5: when the fetched zone list matches nowhere, and equally when the
classification computation fails, the classifier returns the one fixed
masked result: isInside = false and the constant masked coordinates and
name (the code constant is the Indonesian string of MASKED_LOCATION). -/
theorem C5_masked_on_no_match_or_error (dist : ℚ → ℚ → ℚ → ℚ → ℚ)
    (lat long : ℚ) (e : String) (zones : List Geofence)
    (hnone : ∀ g ∈ zones, ¬ dist lat long g.latitude g.longitude ≤ g.radius_km) :
    checkGeofence dist (.error e) lat long = maskedResult ∧
    checkGeofence dist (.ok zones) lat long = maskedResult ∧
    maskedResult.isInside = false ∧
    maskedResult.locationName = MASKED_LOCATION.locationName ∧
    maskedResult.displayLat = MASKED_LOCATION.latitude ∧
    maskedResult.displayLong = MASKED_LOCATION.longitude := by
  refine ⟨rfl, ?_, rfl, rfl, rfl, rfl⟩
  induction zones with
  | nil => rfl
  | cons g gs ih =>
      have hg : ¬ dist lat long g.latitude g.longitude ≤ g.radius_km :=
        hnone g (List.mem_cons_self g gs)
      have ih2 := ih (fun x hx => hnone x (List.mem_cons_of_mem g hx))
      simpa [checkGeofence, geofenceLoop, hg] using ih2

/-- Witness for C5 at concrete inputs: a sample far from the single
configured zone, and a failing fetch, both produce the identical masked
result. -/
theorem C5_masked_on_no_match_or_error_witness :
    (∀ g ∈ [({ name := "Far", latitude := 10, longitude := 10,
               radius_km := 1 } : Geofence)],
        ¬ distW 0 0 g.latitude g.longitude ≤ g.radius_km) ∧
    checkGeofence distW (.error "db down") 0 0 = maskedResult ∧
    checkGeofence distW
      (.ok [{ name := "Far", latitude := 10, longitude := 10, radius_km := 1 }])
      0 0 = maskedResult :=
  ⟨by decide,
   (C5_masked_on_no_match_or_error distW 0 0 "db down"
     [{ name := "Far", latitude := 10, longitude := 10, radius_km := 1 }]
     (by decide)).1,
   (C5_masked_on_no_match_or_error distW 0 0 "db down"
     [{ name := "Far", latitude := 10, longitude := 10, radius_km := 1 }]
     (by decide)).2.1⟩

/-- Helper: looking up the key just set by `mapSet` yields the new value. -/
theorem lookup_mapSet_self {α : Type} (m : List (String × α)) (k : String)
    (v : α) : (mapSet m k v).lookup k = some v := by
  induction m with
  | nil => simp [mapSet]
  | cons p rest ih =>
      by_cases h : p.1 = k
      · simp [mapSet, h]
      · have hne : (k == p.1) = false := beq_eq_false_iff_ne.mpr (Ne.symm h)
        simp [mapSet, h, List.lookup, hne, ih]

/-- Helper: a one-call `update_location` step with numeric `lat`/`long`
fields; the raw handler applied to the normalized valid payload shape. -/
def updateStep (dist : ℚ → ℚ → ℚ → ℚ → ℚ)
    (fetch : Except String (List Geofence)) (sfail hfail : Bool) (u : User)
    (la lo : ℚ) (nowMs : Int) (day : Nat) (date : String)
    (st : PipelineState) : List SocketEvent × PipelineState :=
  handleLocationUpdate dist fetch sfail hfail u
    { lat := .num la, latitude := .undef, long := .num lo, longitude := .undef }
    nowMs day date st

/-- Helper: what a valid-sample step computes, in closed form. -/
theorem updateStep_eq (dist : ℚ → ℚ → ℚ → ℚ → ℚ)
    (fetch : Except String (List Geofence)) (sfail hfail : Bool) (u : User)
    (la lo : ℚ) (nowMs : Int) (day : Nat) (date : String) (st : PipelineState)
    (hrole : u.role = "dosen") :
    updateStep dist fetch sfail hfail u la lo nowMs day date st =
      ([.dosenMoved ("room:dosen_" ++ u.id)
          (movedPayloadOf u (checkGeofence dist fetch la lo) nowMs),
        .locationUpdated true
          (movedPayloadOf u (checkGeofence dist fetch la lo) nowMs)],
       { locations :=
           if LOCATION_SAVE_THROTTLE_MS ≤
               nowMs - (st.lastSaveTimestamps.lookup u.id).getD 0 then
             saveLocation sfail u.id (checkGeofence dist fetch la lo) nowMs
               st.locations
           else st.locations
         lastSaveTimestamps :=
           if LOCATION_SAVE_THROTTLE_MS ≤
               nowMs - (st.lastSaveTimestamps.lookup u.id).getD 0 then
             mapSet st.lastSaveTimestamps u.id nowMs
           else st.lastSaveTimestamps
         history :=
           logLocationToHistory hfail u.id (checkGeofence dist fetch la lo)
             nowMs day date st.history }) := by
  simp [updateStep, handleLocationUpdate, hrole, nullishCoalesce]

/-- Helper: the boolean shouldLog decision as a proposition. -/
theorem shouldLog_iff (ll : Option HistoryRecord) (name : String)
    (nowMs : Int) :
    shouldLogHistory ll name nowMs = true ↔
      ll = none ∨ ∃ r, ll = some r ∧
        (r.location_name ≠ name ∨
          LOCATION_LOG_THROTTLE_MS ≤ nowMs - r.logged_at) := by
  cases ll with
  | none => simp [shouldLogHistory]
  | some r => simp [shouldLogHistory, bne_iff_ne]

/-- C2: for an in-zone sample and a working history store, a new record for
(lecturer, day of week, date) is appended exactly when there is no prior
record for that key, or the most recent one names a different zone, or at
least one hour (3600000 ms) elapsed since its loggedAt; otherwise the
history is returned untouched, and in every case the previous records
survive unchanged as a prefix. -/
theorem C2_history_append_iff (userId : String) (g : GeofenceResult)
    (nowMs : Int) (day : Nat) (date : String) (hist : List HistoryRecord)
    (hin : g.isInside = true) :
    (logLocationToHistory false userId g nowMs day date hist =
        hist ++ [{ dosen_id := userId
                   day_of_week := day
                   location_name := g.locationName
                   latitude := g.displayLat
                   longitude := g.displayLong
                   logged_date := date
                   logged_at := nowMs }] ↔
      lastLogFor hist userId day date = none ∨
        ∃ r, lastLogFor hist userId day date = some r ∧
          (r.location_name ≠ g.locationName ∨
            LOCATION_LOG_THROTTLE_MS ≤ nowMs - r.logged_at)) ∧
    (¬ (lastLogFor hist userId day date = none ∨
        ∃ r, lastLogFor hist userId day date = some r ∧
          (r.location_name ≠ g.locationName ∨
            LOCATION_LOG_THROTTLE_MS ≤ nowMs - r.logged_at)) →
      logLocationToHistory false userId g nowMs day date hist = hist) ∧
    ∃ tail, logLocationToHistory false userId g nowMs day date hist =
      hist ++ tail := by
  have hkey : logLocationToHistory false userId g nowMs day date hist =
      if shouldLogHistory (lastLogFor hist userId day date) g.locationName
          nowMs then
        hist ++ [{ dosen_id := userId
                   day_of_week := day
                   location_name := g.locationName
                   latitude := g.displayLat
                   longitude := g.displayLong
                   logged_date := date
                   logged_at := nowMs }]
      else hist := by
    simp [logLocationToHistory, hin]
  by_cases hs : shouldLogHistory (lastLogFor hist userId day date)
      g.locationName nowMs = true
  · rw [hkey, if_pos hs]
    refine ⟨iff_of_true rfl ((shouldLog_iff _ _ _).mp hs),
      fun hc => absurd ((shouldLog_iff _ _ _).mp hs) hc, _, rfl⟩
  · rw [hkey, if_neg hs]
    refine ⟨iff_of_false (fun hEq => ?_)
      (fun hc => hs ((shouldLog_iff _ _ _).mpr hc)),
      fun _ => rfl, [], by simp⟩
    have hlen := congrArg List.length hEq
    simp at hlen

/-- Witness for C2 at concrete inputs: the first in-zone sample of the day
(empty history) is appended. -/
theorem C2_history_append_iff_witness :
    ({ isInside := true, locationName := "Lab", displayLat := 1,
       displayLong := 2 } : GeofenceResult).isInside = true ∧
    logLocationToHistory false "d1"
      { isInside := true, locationName := "Lab", displayLat := 1,
        displayLong := 2 } 5 1 "2026-01-05" [] =
      [] ++ [{ dosen_id := "d1"
               day_of_week := 1
               location_name := "Lab"
               latitude := 1
               longitude := 2
               logged_date := "2026-01-05"
               logged_at := 5 }] :=
  ⟨rfl,
   ((C2_history_append_iff "d1"
      { isInside := true, locationName := "Lab", displayLat := 1,
        displayLong := 2 } 5 1 "2026-01-05" [] rfl).1).mpr (Or.inl rfl)⟩

/-- C3: a valid sample persists the location exactly when at least 60000 ms
elapsed since the stored last-save timestamp of the lecturer (0, the epoch, when
none is stored — so a lecturer with no previous save qualifies at any
realistic clock value ≥ 60000), and the timestamp advances only on a save;
consequently a fresh lecturer saving at t0 does not save again 10 s later
but does save again 61 s later. -/
theorem C3_persistence_throttle (dist : ℚ → ℚ → ℚ → ℚ → ℚ)
    (fetch : Except String (List Geofence)) (sfail hfail : Bool) (u : User)
    (la lo : ℚ) (day : Nat) (date : String) (st : PipelineState) (t0 : Int)
    (hrole : u.role = "dosen")
    (hfresh : st.lastSaveTimestamps.lookup u.id = none)
    (ht0 : 60000 ≤ t0) :
    (∀ (nowMs : Int) (s : PipelineState),
      (LOCATION_SAVE_THROTTLE_MS ≤
          nowMs - (s.lastSaveTimestamps.lookup u.id).getD 0 →
        (updateStep dist fetch sfail hfail u la lo nowMs day date s).2.locations
            = saveLocation sfail u.id (checkGeofence dist fetch la lo) nowMs
              s.locations ∧
          (updateStep dist fetch sfail hfail u la lo nowMs day date
            s).2.lastSaveTimestamps.lookup u.id = some nowMs) ∧
      (¬ LOCATION_SAVE_THROTTLE_MS ≤
          nowMs - (s.lastSaveTimestamps.lookup u.id).getD 0 →
        (updateStep dist fetch sfail hfail u la lo nowMs day date s).2.locations
            = s.locations ∧
          (updateStep dist fetch sfail hfail u la lo nowMs day date
            s).2.lastSaveTimestamps = s.lastSaveTimestamps)) ∧
    (updateStep dist fetch sfail hfail u la lo t0 day date
        st).2.lastSaveTimestamps.lookup u.id = some t0 ∧
    ((updateStep dist fetch sfail hfail u la lo (t0 + 10000) day date
        (updateStep dist fetch sfail hfail u la lo t0 day date
          st).2).2.locations =
        (updateStep dist fetch sfail hfail u la lo t0 day date
          st).2.locations ∧
      (updateStep dist fetch sfail hfail u la lo (t0 + 10000) day date
          (updateStep dist fetch sfail hfail u la lo t0 day date
            st).2).2.lastSaveTimestamps =
        (updateStep dist fetch sfail hfail u la lo t0 day date
          st).2.lastSaveTimestamps) ∧
    (updateStep dist fetch sfail hfail u la lo (t0 + 61000) day date
        (updateStep dist fetch sfail hfail u la lo t0 day date
          st).2).2.lastSaveTimestamps.lookup u.id = some (t0 + 61000) := by
  have step : ∀ (nowMs : Int) (s : PipelineState),
      (LOCATION_SAVE_THROTTLE_MS ≤
          nowMs - (s.lastSaveTimestamps.lookup u.id).getD 0 →
        (updateStep dist fetch sfail hfail u la lo nowMs day date s).2.locations
            = saveLocation sfail u.id (checkGeofence dist fetch la lo) nowMs
              s.locations ∧
          (updateStep dist fetch sfail hfail u la lo nowMs day date
            s).2.lastSaveTimestamps.lookup u.id = some nowMs) ∧
      (¬ LOCATION_SAVE_THROTTLE_MS ≤
          nowMs - (s.lastSaveTimestamps.lookup u.id).getD 0 →
        (updateStep dist fetch sfail hfail u la lo nowMs day date s).2.locations
            = s.locations ∧
          (updateStep dist fetch sfail hfail u la lo nowMs day date
            s).2.lastSaveTimestamps = s.lastSaveTimestamps) := by
    intro nowMs s
    rw [updateStep_eq dist fetch sfail hfail u la lo nowMs day date s hrole]
    constructor
    · intro h
      simp [if_pos h, lookup_mapSet_self]
    · intro h
      simp [if_neg h]
  have hsave1 : LOCATION_SAVE_THROTTLE_MS ≤
      t0 - (st.lastSaveTimestamps.lookup u.id).getD 0 := by
    rw [hfresh]
    simpa [LOCATION_SAVE_THROTTLE_MS] using ht0
  have h1 := (step t0 st).1 hsave1
  have hlk1 : ((updateStep dist fetch sfail hfail u la lo t0 day date
      st).2.lastSaveTimestamps.lookup u.id).getD 0 = t0 := by
    rw [h1.2]; rfl
  refine ⟨step, h1.2, ?_, ?_⟩
  · have hno : ¬ LOCATION_SAVE_THROTTLE_MS ≤
        (t0 + 10000) -
          ((updateStep dist fetch sfail hfail u la lo t0 day date
            st).2.lastSaveTimestamps.lookup u.id).getD 0 := by
      rw [hlk1]
      simp [LOCATION_SAVE_THROTTLE_MS]
    exact (step (t0 + 10000) _).2 hno
  · have hyes : LOCATION_SAVE_THROTTLE_MS ≤
        (t0 + 61000) -
          ((updateStep dist fetch sfail hfail u la lo t0 day date
            st).2.lastSaveTimestamps.lookup u.id).getD 0 := by
      rw [hlk1]
      simp [LOCATION_SAVE_THROTTLE_MS]
    exact ((step (t0 + 61000) _).1 hyes).2

/-- Witness for C3 at concrete inputs: a fresh lecturer at t0 = 60000 with
an empty state; the call 10 s after the first changes neither the persisted
location nor the throttle timestamp. -/
theorem C3_persistence_throttle_witness :
    ({ id := "d1", name := "Dr", role := "dosen" } : User).role = "dosen" ∧
    (({ locations := [], lastSaveTimestamps := [], history := [] } :
        PipelineState).lastSaveTimestamps.lookup "d1" = none) ∧
    (60000 : Int) ≤ 60000 ∧
    ((updateStep distW (.ok []) false false
        { id := "d1", name := "Dr", role := "dosen" } 0 0 (60000 + 10000) 1
        "2026-01-05"
        (updateStep distW (.ok []) false false
          { id := "d1", name := "Dr", role := "dosen" } 0 0 60000 1
          "2026-01-05"
          { locations := [], lastSaveTimestamps := [],
            history := [] }).2).2.locations =
      (updateStep distW (.ok []) false false
        { id := "d1", name := "Dr", role := "dosen" } 0 0 60000 1 "2026-01-05"
        { locations := [], lastSaveTimestamps := [],
          history := [] }).2.locations) :=
  ⟨rfl, rfl, by decide,
   ((C3_persistence_throttle distW (.ok []) false false
      { id := "d1", name := "Dr", role := "dosen" } 0 0 1 "2026-01-05"
      { locations := [], lastSaveTimestamps := [], history := [] } 60000
      rfl rfl (by decide)).2.2.1).1⟩

/-- C4: when the classification of a valid sample lands outside every zone,
the sample is never historized — the history store is returned untouched
whatever it contains and whatever the history collaborator does — while the
room broadcast is still emitted and the 60-second persistence rule still
runs unchanged. -/
theorem C4_outside_never_historized (dist : ℚ → ℚ → ℚ → ℚ → ℚ)
    (fetch : Except String (List Geofence)) (sfail hfail : Bool) (u : User)
    (la lo : ℚ) (nowMs : Int) (day : Nat) (date : String) (st : PipelineState)
    (hrole : u.role = "dosen")
    (hout : (checkGeofence dist fetch la lo).isInside = false) :
    (updateStep dist fetch sfail hfail u la lo nowMs day date st).2.history =
      st.history ∧
    SocketEvent.dosenMoved ("room:dosen_" ++ u.id)
        (movedPayloadOf u (checkGeofence dist fetch la lo) nowMs) ∈
      (updateStep dist fetch sfail hfail u la lo nowMs day date st).1 ∧
    (updateStep dist fetch sfail hfail u la lo nowMs day date st).2.locations =
      (if LOCATION_SAVE_THROTTLE_MS ≤
          nowMs - (st.lastSaveTimestamps.lookup u.id).getD 0 then
        saveLocation sfail u.id (checkGeofence dist fetch la lo) nowMs
          st.locations
      else st.locations) ∧
    (updateStep dist fetch sfail hfail u la lo nowMs day date
        st).2.lastSaveTimestamps =
      (if LOCATION_SAVE_THROTTLE_MS ≤
          nowMs - (st.lastSaveTimestamps.lookup u.id).getD 0 then
        mapSet st.lastSaveTimestamps u.id nowMs
      else st.lastSaveTimestamps) := by
  rw [updateStep_eq dist fetch sfail hfail u la lo nowMs day date st hrole]
  refine ⟨?_, by simp, rfl, rfl⟩
  simp [logLocationToHistory, hout]

/-- Witness for C4 at concrete inputs: an empty zone list classifies the
sample outside, and a non-empty history survives the step unchanged. -/
theorem C4_outside_never_historized_witness :
    ({ id := "d1", name := "Dr", role := "dosen" } : User).role = "dosen" ∧
    (checkGeofence distW (.ok []) 7 8).isInside = false ∧
    (updateStep distW (.ok []) false true
        { id := "d1", name := "Dr", role := "dosen" } 7 8 99 2 "2026-01-06"
        { locations := [], lastSaveTimestamps := []
          history := [{ dosen_id := "d1", day_of_week := 2,
                        location_name := "Lab", latitude := 1, longitude := 2,
                        logged_date := "2026-01-06",
                        logged_at := 50 }] }).2.history =
      [{ dosen_id := "d1", day_of_week := 2, location_name := "Lab",
         latitude := 1, longitude := 2, logged_date := "2026-01-06",
         logged_at := 50 }] :=
  ⟨rfl, rfl,
   (C4_outside_never_historized distW (.ok []) false true
      { id := "d1", name := "Dr", role := "dosen" } 7 8 99 2 "2026-01-06"
      { locations := [], lastSaveTimestamps := []
        history := [{ dosen_id := "d1", day_of_week := 2,
                      location_name := "Lab", latitude := 1, longitude := 2,
                      logged_date := "2026-01-06", logged_at := 50 }] }
      rfl rfl).1⟩

/-- C9: failures of the location store or of the history store during a
valid sample do not change what is emitted: the events are exactly those of
the failure-free run, the already-delivered room broadcast is among them,
and the success acknowledgment is still sent. -/
theorem C9_store_failures_swallowed (dist : ℚ → ℚ → ℚ → ℚ → ℚ)
    (fetch : Except String (List Geofence)) (u : User) (la lo : ℚ)
    (nowMs : Int) (day : Nat) (date : String) (st : PipelineState)
    (hrole : u.role = "dosen") :
    ∀ sfail hfail : Bool,
      (updateStep dist fetch sfail hfail u la lo nowMs day date st).1 =
        (updateStep dist fetch false false u la lo nowMs day date st).1 ∧
      SocketEvent.dosenMoved ("room:dosen_" ++ u.id)
          (movedPayloadOf u (checkGeofence dist fetch la lo) nowMs) ∈
        (updateStep dist fetch sfail hfail u la lo nowMs day date st).1 ∧
      SocketEvent.locationUpdated true
          (movedPayloadOf u (checkGeofence dist fetch la lo) nowMs) ∈
        (updateStep dist fetch sfail hfail u la lo nowMs day date st).1 := by
  intro sfail hfail
  rw [updateStep_eq dist fetch sfail hfail u la lo nowMs day date st hrole,
    updateStep_eq dist fetch false false u la lo nowMs day date st hrole]
  exact ⟨rfl, by simp, by simp⟩

/-- Witness for C9 at concrete inputs: with both stores failing, the
acknowledgment is still among the emitted events. -/
theorem C9_store_failures_swallowed_witness :
    ({ id := "d1", name := "Dr", role := "dosen" } : User).role = "dosen" ∧
    SocketEvent.locationUpdated true
        (movedPayloadOf { id := "d1", name := "Dr", role := "dosen" }
          (checkGeofence distW (.ok []) 7 8) 99) ∈
      (updateStep distW (.ok []) true true
        { id := "d1", name := "Dr", role := "dosen" } 7 8 99 2 "2026-01-06"
        { locations := [], lastSaveTimestamps := [], history := [] }).1 :=
  ⟨rfl,
   ((C9_store_failures_swallowed distW (.ok [])
      { id := "d1", name := "Dr", role := "dosen" } 7 8 99 2 "2026-01-06"
      { locations := [], lastSaveTimestamps := [], history := [] } rfl)
      true true).2.2⟩

/-! ### Presence helper lemmas -/

theorem mem_setAdd_self (s : List String) (x : String) : x ∈ setAdd s x := by
  by_cases h : x ∈ s <;> simp [setAdd, h]

theorem setAdd_of_mem (s : List String) (x : String) (h : x ∈ s) :
    setAdd s x = s := by
  simp [setAdd, h]

theorem setAdd_length_of_not_mem (s : List String) (x : String)
    (h : x ∉ s) : (setAdd s x).length = s.length + 1 := by
  simp [setAdd, h]

theorem setAdd_nodup (s : List String) (x : String) (h : s.Nodup) :
    (setAdd s x).Nodup := by
  by_cases hm : x ∈ s
  · simpa [setAdd, hm] using h
  · simp [setAdd, hm, List.nodup_append, h]

theorem setDel_nodup (s : List String) (x : String) (h : s.Nodup) :
    (setDel s x).Nodup :=
  h.filter _

theorem not_mem_setDel_self (s : List String) (x : String) :
    x ∉ setDel s x := by
  simp [setDel]

theorem setDel_of_not_mem (s : List String) (x : String) (h : x ∉ s) :
    setDel s x = s := by
  induction s with
  | nil => rfl
  | cons a as ih =>
      have hax : a ≠ x := fun he => h (he ▸ List.mem_cons_self a as)
      have has : x ∉ as := fun hm => h (List.mem_cons_of_mem a hm)
      simp [setDel, hax] at ih ⊢
      exact ih has

theorem setDel_idem (s : List String) (x : String) :
    setDel (setDel s x) x = setDel s x :=
  setDel_of_not_mem _ _ (not_mem_setDel_self s x)

theorem setDel_length (s : List String) (x : String) (hnd : s.Nodup)
    (hm : x ∈ s) : (setDel s x).length + 1 = s.length := by
  induction s with
  | nil => cases hm
  | cons a as ih =>
      rcases List.nodup_cons.mp hnd with ⟨ha, hnd2⟩
      rcases List.mem_cons.mp hm with rfl | hm2
      · have hh : setDel (x :: as) x = setDel as x := by simp [setDel]
        rw [hh, setDel_of_not_mem as x ha]
        simp
      · have hax : a ≠ x := fun he => ha (he ▸ hm2)
        simp only [setDel, List.filter_cons]
        rw [if_pos (by simpa using hax)]
        simpa [setDel] using ih hnd2 hm2

theorem mem_of_lookup {α : Type} (m : List (String × α)) (k : String)
    (v : α) (h : m.lookup k = some v) : (k, v) ∈ m := by
  induction m with
  | nil => simp [List.lookup] at h
  | cons p rest ih =>
      obtain ⟨a, b⟩ := p
      by_cases hk : k = a
      · have hb : (k == a) = true := beq_iff_eq.mpr hk
        have hv : b = v := by
          simpa [List.lookup, hb] using h
        subst hk
        subst hv
        exact List.mem_cons_self _ _
      · have hb : (k == a) = false := beq_eq_false_iff_ne.mpr hk
        have h2 : rest.lookup k = some v := by
          simpa [List.lookup, hb] using h
        exact List.mem_cons_of_mem _ (ih h2)

theorem lookup_mapDel_self {α : Type} (m : List (String × α)) (k : String) :
    (mapDel m k).lookup k = none := by
  induction m with
  | nil => rfl
  | cons p rest ih =>
      by_cases h : p.1 = k
      · simpa [mapDel, h] using ih
      · have hb : (k == p.1) = false := beq_eq_false_iff_ne.mpr (Ne.symm h)
        simpa [mapDel, h, List.lookup, hb] using ih

theorem mapSet_lookup_eq {α : Type} (m : List (String × α)) (k : String)
    (v : α) (h : m.lookup k = some v) : mapSet m k v = m := by
  induction m with
  | nil => simp [List.lookup] at h
  | cons p rest ih =>
      by_cases hk : p.1 = k
      · have hb : (k == p.1) = true := beq_iff_eq.mpr hk.symm
        have hv : p.2 = v := by
          simpa [List.lookup, hb] using h
        cases p
        simp_all [mapSet]
      · have hb : (k == p.1) = false := beq_eq_false_iff_ne.mpr (Ne.symm hk)
        have h2 : rest.lookup k = some v := by
          simpa [List.lookup, hb] using h
        simp [mapSet, hk, ih h2]

/-- Helper: over a well-formed trace, the size of the abstract connected
set changes by exactly one per event, so final size plus disconnects equals
initial size plus connects. -/
theorem absRun_length (tr : List PEvent) :
    ∀ s : List String, s.Nodup → wfFrom s tr = true →
      (absRun s tr).length + numDisc tr = s.length + numConn tr := by
  induction tr with
  | nil =>
      intro s _ _
      simp [absRun, numConn, numDisc]
  | cons e rest ih =>
      intro s hnd hwf
      cases e with
      | conn sid =>
          rw [wfFrom, Bool.and_eq_true] at hwf
          have hfresh : sid ∉ s := by simpa using hwf.1
          have hrec := ih (setAdd s sid) (setAdd_nodup s sid hnd) hwf.2
          have habs : absRun s (.conn sid :: rest) = absRun (setAdd s sid) rest := rfl
          have hnc : numConn (.conn sid :: rest) = numConn rest + 1 := by
            simp [numConn, List.filter_cons]
          have hdc : numDisc (.conn sid :: rest) = numDisc rest := by
            simp [numDisc, List.filter_cons]
          rw [habs, hnc, hdc,
            show s.length + (numConn rest + 1) =
              (s.length + 1) + numConn rest by omega,
            ← setAdd_length_of_not_mem s sid hfresh]
          exact hrec
      | disc sid =>
          rw [wfFrom, Bool.and_eq_true] at hwf
          have hmem : sid ∈ s := by simpa using hwf.1
          have hrec := ih (setDel s sid) (setDel_nodup s sid hnd) hwf.2
          have habs : absRun s (.disc sid :: rest) = absRun (setDel s sid) rest := rfl
          have hnc : numConn (.disc sid :: rest) = numConn rest := by
            simp [numConn, List.filter_cons]
          have hdc : numDisc (.disc sid :: rest) = numDisc rest + 1 := by
            simp [numDisc, List.filter_cons]
          have hlen := setDel_length s sid hnd hmem
          rw [habs, hnc, hdc]
          omega

/-- Helper: abstract runs preserve duplicate-freedom. -/
theorem absRun_nodup (tr : List PEvent) :
    ∀ s : List String, s.Nodup → (absRun s tr).Nodup := by
  induction tr with
  | nil => intro s h; simpa [absRun] using h
  | cons e rest ih =>
      intro s h
      cases e with
      | conn sid => exact ih (setAdd s sid) (setAdd_nodup s sid h)
      | disc sid => exact ih (setDel s sid) (setDel_nodup s sid h)

/-- Registry state of the set-based model holding exactly the abstract
connected set for one identity (the map entry is dropped when empty, as the
source does). -/
def mStateSet (id : String) (s : List String) :
    List (String × List String) :=
  if s.isEmpty then [] else [(id, s)]

/-- Helper: the set-based registry simulates the abstract connected set
along well-formed traces. -/
theorem runSet_sim (id : String) (tr : List PEvent) :
    ∀ s : List String, wfFrom s tr = true →
      List.foldl (stepSet id) (mStateSet id s) tr =
        mStateSet id (absRun s tr) := by
  induction tr with
  | nil => intro s _; rfl
  | cons e rest ih =>
      intro s hwf
      cases e with
      | conn sid =>
          rw [wfFrom, Bool.and_eq_true] at hwf
          have hstep : stepSet id (mStateSet id s) (.conn sid) =
              mStateSet id (setAdd s sid) := by
            by_cases hs : s.isEmpty
            · have hsnil : s = [] := List.isEmpty_iff.mp hs
              subst hsnil
              simp [mStateSet, stepSet, dosenConnect, setAdd, mapSet]
            · have hne : ¬ (setAdd s sid).isEmpty := by
                have := mem_setAdd_self s sid
                cases h2 : setAdd s sid with
                | nil => rw [h2] at this; cases this
                | cons a as => simp
              simp only [mStateSet, if_neg hs, if_neg hne]
              simp [stepSet, dosenConnect, List.lookup, mapSet]
          calc List.foldl (stepSet id) (mStateSet id s) (.conn sid :: rest)
              = List.foldl (stepSet id) (mStateSet id (setAdd s sid)) rest := by
                rw [List.foldl_cons, hstep]
            _ = mStateSet id (absRun (setAdd s sid) rest) := ih _ hwf.2
            _ = mStateSet id (absRun s (.conn sid :: rest)) := rfl
      | disc sid =>
          rw [wfFrom, Bool.and_eq_true] at hwf
          have hmem : sid ∈ s := by simpa using hwf.1
          have hs : ¬ s.isEmpty := by
            cases s with
            | nil => cases hmem
            | cons a as => simp
          have hstep : stepSet id (mStateSet id s) (.disc sid) =
              mStateSet id (setDel s sid) := by
            simp only [mStateSet, if_neg hs]
            by_cases hde : (setDel s sid).isEmpty
            · simp [stepSet, dosenDisconnect, List.lookup, hde, mapDel,
                mStateSet]
            · simp [stepSet, dosenDisconnect, List.lookup, hde, mapSet,
                mStateSet]
          calc List.foldl (stepSet id) (mStateSet id s) (.disc sid :: rest)
              = List.foldl (stepSet id) (mStateSet id (setDel s sid)) rest := by
                rw [List.foldl_cons, hstep]
            _ = mStateSet id (absRun (setDel s sid) rest) := ih _ hwf.2
            _ = mStateSet id (absRun s (.disc sid :: rest)) := rfl

/-- Registry state of the count-based model holding exactly the size of
the abstract connected set for one identity. -/
def mStateCount (id : String) (s : List String) : List (String × Int) :=
  if s.isEmpty then [] else [(id, (s.length : Int))]

/-- Helper: the count-based registry simulates the size of the abstract
connected set along well-formed traces. -/
theorem runCount_sim (id : String) (tr : List PEvent) :
    ∀ s : List String, s.Nodup → wfFrom s tr = true →
      List.foldl (stepCount id) (mStateCount id s) tr =
        mStateCount id (absRun s tr) := by
  induction tr with
  | nil => intro s _ _; rfl
  | cons e rest ih =>
      intro s hnd hwf
      cases e with
      | conn sid =>
          rw [wfFrom, Bool.and_eq_true] at hwf
          have hfresh : sid ∉ s := by simpa using hwf.1
          have hstep : stepCount id (mStateCount id s) (.conn sid) =
              mStateCount id (setAdd s sid) := by
            by_cases hs : s.isEmpty
            · have hsnil : s = [] := List.isEmpty_iff.mp hs
              subst hsnil
              simp [mStateCount, stepCount, cConnect, setAdd, mapSet]
            · have hne : ¬ (setAdd s sid).isEmpty := by
                have := mem_setAdd_self s sid
                cases h2 : setAdd s sid with
                | nil => rw [h2] at this; cases this
                | cons a as => simp
              simp only [mStateCount, if_neg hs, if_neg hne]
              simp [stepCount, cConnect, List.lookup, mapSet,
                setAdd_length_of_not_mem s sid hfresh]
          rw [List.foldl_cons, hstep]
          exact ih _ (setAdd_nodup s sid hnd) hwf.2
      | disc sid =>
          rw [wfFrom, Bool.and_eq_true] at hwf
          have hmem : sid ∈ s := by simpa using hwf.1
          have hs : ¬ s.isEmpty := by
            cases s with
            | nil => cases hmem
            | cons a as => simp
          have hlen := setDel_length s sid hnd hmem
          have hstep : stepCount id (mStateCount id s) (.disc sid) =
              mStateCount id (setDel s sid) := by
            simp only [mStateCount, if_neg hs]
            by_cases hde : (setDel s sid).isEmpty
            · have h0 : (setDel s sid).length = 0 :=
                List.isEmpty_iff.mp hde ▸ rfl
              have hs1 : s.length = 1 := by omega
              simp [stepCount, cDisconnect, List.lookup, mapDel, mStateCount,
                hde, hs1]
            · have h0 : (setDel s sid).length ≠ 0 := by
                intro h
                exact hde (List.isEmpty_iff.mpr (List.length_eq_zero.mp h))
              have hc : (List.lookup id [(id, (s.length : Int))]).getD 0 =
                  (s.length : Int) := by simp [List.lookup]
              have hmax : max 0 ((s.length : Int) - 1) =
                  ((setDel s sid).length : Int) := by
                rw [max_eq_right (by omega : (0 : Int) ≤ (s.length : Int) - 1)]
                omega
              have hn0 : ((setDel s sid).length : Int) ≠ 0 := by
                exact_mod_cast h0
              simp only [stepCount, cDisconnect, hc, hmax, if_neg hn0,
                mStateCount, if_neg hde]
              simp [mapSet]
          rw [List.foldl_cons, hstep]
          exact ih _ (setDel_nodup s sid hnd) hwf.2

/-- Helper: the set-based online check over the single-identity state. -/
theorem isDosenOnline_mStateSet (id : String) (s : List String) :
    isDosenOnline (mStateSet id s) id = decide (0 < s.length) := by
  by_cases he : s.isEmpty
  · have hs : s = [] := List.isEmpty_iff.mp he
    subst hs
    simp [mStateSet, isDosenOnline]
  · simp [mStateSet, he, isDosenOnline, List.lookup]

/-- Helper: the count-based online check over the single-identity state. -/
theorem cIsOnline_mStateCount (id : String) (s : List String) :
    cIsOnline (mStateCount id s) id = decide (0 < s.length) := by
  by_cases he : s.isEmpty
  · have hs : s = [] := List.isEmpty_iff.mp he
    subst hs
    simp [mStateCount, cIsOnline]
  · simp [mStateCount, he, cIsOnline, List.lookup]

/-- C7: along any well-formed interleaving of connect and disconnect events
for one identity, both the set-based and the count-based isDosenOnline
return true exactly when the completed connects outnumber the completed
disconnects, and every stored count of the count-based registry is
non-negative. -/
theorem C7_presence_online_iff (id : String) (tr : List PEvent)
    (hwf : wfFrom [] tr = true) :
    (isDosenOnline (runSetModel id tr) id =
      decide (numDisc tr < numConn tr)) ∧
    (cIsOnline (runCountModel id tr) id =
      decide (numDisc tr < numConn tr)) ∧
    (∀ p ∈ runCountModel id tr, 0 ≤ p.2) := by
  have hlen := absRun_length tr [] List.nodup_nil hwf
  have hset : runSetModel id tr = mStateSet id (absRun [] tr) := by
    have h := runSet_sim id tr [] hwf
    simpa [runSetModel, mStateSet] using h
  have hcount : runCountModel id tr = mStateCount id (absRun [] tr) := by
    have h := runCount_sim id tr [] List.nodup_nil hwf
    simpa [runCountModel, mStateCount] using h
  refine ⟨?_, ?_, ?_⟩
  · rw [hset, isDosenOnline_mStateSet, decide_eq_decide]
    simp [numConn, numDisc] at hlen ⊢
    omega
  · rw [hcount, cIsOnline_mStateCount, decide_eq_decide]
    simp [numConn, numDisc] at hlen ⊢
    omega
  · rw [hcount]
    intro p hp
    by_cases he : (absRun [] tr).isEmpty
    · simp [mStateCount, he] at hp
    · simp [mStateCount, he] at hp
      rw [hp]
      exact Int.natCast_nonneg _

/-- Witness for C7 at a concrete trace: two connects then one disconnect
leave the identity online in both registry variants. -/
theorem C7_presence_online_iff_witness :
    wfFrom [] [PEvent.conn "a", PEvent.conn "b", PEvent.disc "a"] = true ∧
    isDosenOnline
        (runSetModel "d1" [PEvent.conn "a", PEvent.conn "b", PEvent.disc "a"])
        "d1" =
      decide (numDisc [PEvent.conn "a", PEvent.conn "b", PEvent.disc "a"] <
        numConn [PEvent.conn "a", PEvent.conn "b", PEvent.disc "a"]) :=
  ⟨by decide,
   (C7_presence_online_iff "d1"
      [PEvent.conn "a", PEvent.conn "b", PEvent.disc "a"] (by decide)).1⟩

/-- C8: in the set-based presence registry, invoking connect or disconnect
a second time with the same identity and connection id leaves the registry
state exactly as after the first invocation, and removing an absent
connection id is a no-op (the hypothesis is the registry invariant that
stored socket sets are never empty). -/
theorem C8_presence_idempotent (m : List (String × List String))
    (id sid : String) (hwf : ∀ p ∈ m, p.2 ≠ []) :
    dosenConnect (dosenConnect m id sid) id sid = dosenConnect m id sid ∧
    dosenDisconnect (dosenDisconnect m id sid) id sid =
      dosenDisconnect m id sid ∧
    (sid ∉ (m.lookup id).getD [] → dosenDisconnect m id sid = m) := by
  refine ⟨?_, ?_, ?_⟩
  · show mapSet (dosenConnect m id sid) id
        (setAdd (((dosenConnect m id sid).lookup id).getD []) sid) =
      dosenConnect m id sid
    rw [show (dosenConnect m id sid).lookup id =
        some (setAdd ((m.lookup id).getD []) sid) from
      lookup_mapSet_self _ _ _]
    rw [Option.getD_some, setAdd_of_mem _ _ (mem_setAdd_self _ _)]
    exact mapSet_lookup_eq _ _ _ (lookup_mapSet_self _ _ _)
  · cases hm : m.lookup id with
    | none =>
        have h1 : dosenDisconnect m id sid = m := by
          unfold dosenDisconnect
          rw [hm]
        rw [h1, h1]
    | some s =>
        have h1 : dosenDisconnect m id sid =
            (if (setDel s sid).isEmpty then mapDel m id
             else mapSet m id (setDel s sid)) := by
          unfold dosenDisconnect
          rw [hm]
        by_cases hde : (setDel s sid).isEmpty
        · rw [h1, if_pos hde]
          unfold dosenDisconnect
          rw [lookup_mapDel_self]
        · rw [h1, if_neg hde]
          unfold dosenDisconnect
          rw [lookup_mapSet_self]
          simp only [setDel_idem, if_neg hde]
          exact mapSet_lookup_eq _ _ _ (lookup_mapSet_self _ _ _)
  · intro habs
    cases hm : m.lookup id with
    | none =>
        unfold dosenDisconnect
        rw [hm]
    | some s =>
        have hsd : setDel s sid = s := by
          rw [hm] at habs
          exact setDel_of_not_mem s sid habs
        have hsne : s ≠ [] := hwf (id, s) (mem_of_lookup m id s hm)
        have hne : ¬ s.isEmpty := fun h => hsne (List.isEmpty_iff.mp h)
        unfold dosenDisconnect
        rw [hm]
        simp only [hsd, if_neg hne]
        exact mapSet_lookup_eq _ _ _ hm

/-- Witness for C8 at a concrete registry: the identity holds one live
socket; removing a different, absent socket id changes nothing. -/
theorem C8_presence_idempotent_witness :
    (∀ p ∈ [("d1", ["s1"])], p.2 ≠ ([] : List String)) ∧
    "s2" ∉ ((([("d1", ["s1"])] : List (String × List String)).lookup
      "d1").getD []) ∧
    dosenDisconnect [("d1", ["s1"])] "d1" "s2" = [("d1", ["s1"])] :=
  ⟨by decide, by decide,
   (C8_presence_idempotent [("d1", ["s1"])] "d1" "s2" (by decide)).2.2
     (by decide)⟩

/-- Helper: the connection just joined to a room is a member of it. -/
theorem roomHasMember_roomJoin (rooms : List (String × List String))
    (r sid : String) : roomHasMember (roomJoin rooms r sid) r sid = true := by
  unfold roomHasMember roomJoin
  rw [lookup_mapSet_self]
  simp [mem_setAdd_self]

/-- C6 counterexample: with an unknown lecturer id (no such user anywhere,
hence — by the foreign keys of the schema — no permission row either) the
join handler emits the very same access-denied authorization error as the
known-lecturer/no-permission case; there is no distinct not-found error
response, contradicting the claimed NotFoundError for unknown lecturer
ids. -/
theorem C6_counterexample_no_notfound :
    handleJoinDosenRoom { id := "m1", name := "Stu", role := "mahasiswa" }
        "sock1" { dosenId := .str "ghost", dosen_id := .undef }
        { permissions := [], users := [], locations := [], onlineUsers := [] }
        [] =
      ([.errorMsg
          "Access denied. You do not have permission to track this dosen."],
       []) ∧
    handleJoinDosenRoom { id := "m1", name := "Stu", role := "mahasiswa" }
        "sock1" { dosenId := .str "d1", dosen_id := .undef }
        { permissions := [], users := [("d1", "Dr")], locations := [],
          onlineUsers := [] }
        [] =
      ([.errorMsg
          "Access denied. You do not have permission to track this dosen."],
       []) := by
  constructor <;> rfl

/-- C6 (amended): the join handler adds the subscriber connection to the
room of the lecturer exactly when the role of the subscriber is mahasiswa, the
normalized dosen id is truthy and an approved permission record exists; a
wrong role and a missing approved permission each produce their error with
no membership change, an unknown lecturer id falls into the same
access-denied authorization error (never a distinct not-found error), and
approving a permission afterwards touches only the permission store, never
room membership, so no membership arises without a fresh join. -/
theorem C6_join_requires_role_and_approval (u : User) (sid : String)
    (data : JoinData) (env : JoinEnv)
    (rooms : List (String × List String)) :
    (u.role ≠ "mahasiswa" →
      handleJoinDosenRoom u sid data env rooms =
        ([.errorMsg "Only mahasiswa can join dosen tracking rooms"], rooms)) ∧
    (u.role = "mahasiswa" →
      isFalsy (nullishCoalesce data.dosenId data.dosen_id) = false →
      hasApproved env.permissions u.id
          (jsDisplay (nullishCoalesce data.dosenId data.dosen_id)) = none →
      handleJoinDosenRoom u sid data env rooms =
        ([.errorMsg
            "Access denied. You do not have permission to track this dosen."],
         rooms)) ∧
    (u.role = "mahasiswa" →
      isFalsy (nullishCoalesce data.dosenId data.dosen_id) = false →
      (∃ p, hasApproved env.permissions u.id
          (jsDisplay (nullishCoalesce data.dosenId data.dosen_id)) = some p) →
      (handleJoinDosenRoom u sid data env rooms).2 =
        roomJoin rooms
          ("room:dosen_" ++
            jsDisplay (nullishCoalesce data.dosenId data.dosen_id)) sid ∧
      roomHasMember (handleJoinDosenRoom u sid data env rooms).2
        ("room:dosen_" ++
          jsDisplay (nullishCoalesce data.dosenId data.dosen_id)) sid =
        true) ∧
    (∀ (st : SystemState) (pid act : String),
      (applyHandleRequest st pid act).rooms = st.rooms) := by
  refine ⟨?_, ?_, ?_, fun st pid act => rfl⟩
  · intro h
    simp [handleJoinDosenRoom, h]
  · intro hrole hfalsy hperm
    simp [handleJoinDosenRoom, hrole, hfalsy, hperm]
  · rintro hrole hfalsy ⟨p, hp⟩
    have h2 : (handleJoinDosenRoom u sid data env rooms).2 =
        roomJoin rooms
          ("room:dosen_" ++
            jsDisplay (nullishCoalesce data.dosenId data.dosen_id)) sid := by
      simp [handleJoinDosenRoom, hrole, hfalsy, hp]
    exact ⟨h2, by rw [h2]; exact roomHasMember_roomJoin _ _ _⟩

/-- Witness for the amended C6 at concrete inputs: an approved student
joining a known lecturer becomes a member of that room. -/
theorem C6_join_requires_role_and_approval_witness :
    ({ id := "m1", name := "Stu", role := "mahasiswa" } : User).role =
      "mahasiswa" ∧
    isFalsy (nullishCoalesce (.str "d1") .undef) = false ∧
    roomHasMember
      (handleJoinDosenRoom { id := "m1", name := "Stu", role := "mahasiswa" }
        "sock1" { dosenId := .str "d1", dosen_id := .undef }
        { permissions := [{ id := "p1", student_id := "m1",
                            lecturer_id := "d1", status := "approved" }],
          users := [("d1", "Dr")], locations := [], onlineUsers := [] }
        []).2
      ("room:dosen_" ++ jsDisplay (nullishCoalesce (.str "d1") .undef))
      "sock1" = true :=
  ⟨rfl, rfl,
   ((C6_join_requires_role_and_approval
      { id := "m1", name := "Stu", role := "mahasiswa" } "sock1"
      { dosenId := .str "d1", dosen_id := .undef }
      { permissions := [{ id := "p1", student_id := "m1", lecturer_id := "d1",
                          status := "approved" }],
        users := [("d1", "Dr")], locations := [], onlineUsers := [] }
      []).2.2.1 rfl rfl
      ⟨{ id := "p1", student_id := "m1", lecturer_id := "d1",
         status := "approved" }, by decide⟩).2⟩

/-- C10: any join payload whose normalized dosen id is falsy — the field
missing, null, the number 0, or the empty string — is rejected with the
required-field error and no membership change, even when an approved
permission record exists. -/
theorem C10_falsy_dosen_id_rejected (u : User) (sid : String)
    (data : JoinData) (env : JoinEnv) (rooms : List (String × List String))
    (hrole : u.role = "mahasiswa")
    (hfalsy : isFalsy (nullishCoalesce data.dosenId data.dosen_id) = true) :
    handleJoinDosenRoom u sid data env rooms =
      ([.errorMsg "dosen_id is required"], rooms) := by
  simp [handleJoinDosenRoom, hrole, hfalsy]

/-- Witness for C10 at concrete inputs: the lecturer id is the number 0 and
an approved permission record for lecturer id 0 exists, yet the handler
still rejects the join. -/
theorem C10_falsy_dosen_id_rejected_witness :
    ({ id := "m1", name := "Stu", role := "mahasiswa" } : User).role =
      "mahasiswa" ∧
    isFalsy (nullishCoalesce (.num 0) .undef) = true ∧
    handleJoinDosenRoom { id := "m1", name := "Stu", role := "mahasiswa" }
        "sock1" { dosenId := .num 0, dosen_id := .undef }
        { permissions := [{ id := "p1", student_id := "m1",
                            lecturer_id := "0", status := "approved" }],
          users := [("0", "Dr Zero")], locations := [], onlineUsers := [] }
        [] =
      ([.errorMsg "dosen_id is required"], []) :=
  ⟨rfl, by decide,
   C10_falsy_dosen_id_rejected
     { id := "m1", name := "Stu", role := "mahasiswa" } "sock1"
     { dosenId := .num 0, dosen_id := .undef }
     { permissions := [{ id := "p1", student_id := "m1", lecturer_id := "0",
                         status := "approved" }],
       users := [("0", "Dr Zero")], locations := [], onlineUsers := [] }
     [] rfl (by decide)⟩

end MyDosen
